import Mathlib

/-!
Shallow embedding of `src/components/ISOToolsSectionClient.jsx`: a React
component that fetches a JSON news feed, deduplicates the articles by `id`,
and renders one of four views (loading, error, empty, grid of cards).

Modelling conventions:
* JavaScript values reachable as article fields are embedded as `JSValue`;
  an object's absent property reads as `JSValue.undefined`, and non-primitive
  field values (objects/arrays) are `JSValue.ref r`, compared by reference
  identity `r` — faithful to `===` on values produced by `JSON.parse`, which
  never aliases two parse nodes and never produces `NaN` or `undefined`
  inside the document.
* The `daily_news` field of the payload is embedded as `DNValue`; a non-array
  object carries the numeric value of its `length` property when it has one,
  since the component only observes `data.length === 0` on it.
* The parsed JSON body is projected to the one field the component reads.
* `setData`/`setError`/`setLoading` become field updates on `ComponentState`;
  the render function is the pure function of that state found in the JSX.
-/

namespace ISOTools

/-- A JavaScript value as it can appear in an article field after
`JSON.parse`: primitives, or an object/array identified by its reference. -/
inductive JSValue where
  | undefined
  | null
  | boolean (b : Bool)
  | num (n : Int)
  | str (s : String)
  | ref (r : Nat)
deriving DecidableEq

/-- JavaScript truthiness for `JSValue` (`NaN` cannot occur: the values come
from `JSON.parse`). -/
def jsTruthy : JSValue → Bool
  | .undefined => false
  | .null => false
  | .boolean b => b
  | .num n => n != 0
  | .str s => s != ""
  | .ref _ => true

/-- A news-article object. Each field holds the JS value of the property of
the same name; a property absent from the object reads as `undefined`. -/
structure Article where
  id : JSValue := JSValue.undefined
  title : JSValue := JSValue.undefined
  text : JSValue := JSValue.undefined
  image_url : JSValue := JSValue.undefined
deriving DecidableEq

/-- The possible values of the payload's `daily_news` field (`undefined`
models the absent field as read by property access). A non-array object
`obj len` records the numeric value of its `length` property when present
(`none` otherwise), the only thing the component observes about it. -/
inductive DNValue where
  | undefined
  | null
  | boolean (b : Bool)
  | num (n : Int)
  | str (s : String)
  | arr (xs : List Article)
  | obj (len : Option Int)
deriving DecidableEq

/-- JavaScript truthiness for a `daily_news` value. -/
def dnTruthy : DNValue → Bool
  | .undefined => false
  | .null => false
  | .boolean b => b
  | .num n => n != 0
  | .str s => s != ""
  | .arr _ => true
  | .obj _ => true

/-- The test `data.length === 0`: true for an empty array, the empty string,
or a non-array object whose `length` property is the number `0`; on every
other value `.length` is `undefined` (or a non-zero number) and the strict
comparison is false. -/
def dnLengthIsZero : DNValue → Bool
  | .arr xs => xs.length == 0
  | .str s => s.length == 0
  | .obj l => l == some 0
  | _ => false

/-- JavaScript `a || b`. -/
def jsOr (a b : DNValue) : DNValue := if dnTruthy a then a else b

/-- The parsed JSON body, projected to the only field the component reads
(`none` = the field is absent from the document). -/
structure Payload where
  daily_news : Option DNValue := none
deriving DecidableEq

/-- `json.daily_news`: property access, an absent field reads as `undefined`. -/
def getDailyNews (p : Payload) : DNValue := p.daily_news.getD DNValue.undefined

/-- Outcome of the single `fetch` + `response.json()` interaction:
the promise rejects (network/transport error), or a response arrives with
`ok` status flag and a body that either parses to a `Payload` or does not
parse as JSON (`none`). -/
inductive FetchOutcome where
  | networkError
  | response (ok : Bool) (body : Option Payload)
deriving DecidableEq

/-- The component's local state: the three `useState` hooks. -/
structure ComponentState where
  data : Option DNValue
  loading : Bool
  error : Option String
deriving DecidableEq

/-- `useState(null)`, `useState(true)`, `useState(null)`. -/
def initialState : ComponentState := { data := none, loading := true, error := none }

/-- The single user-visible failure message set in the `catch` block. -/
def errorMessage : String := "No se pudieron cargar las noticias de ISOTools."

/-- `fetchData`: the `try`/`catch`/`finally` body. A non-ok status throws
before the body is read, so the body is ignored on that path; a body that
fails to parse throws from `response.json()`; every throw is caught and sets
the fixed error message; the `finally` clause clears `loading` on all paths. -/
def load (s : ComponentState) (o : FetchOutcome) : ComponentState :=
  match o with
  | .networkError => { s with error := some errorMessage, loading := false }
  | .response ok body =>
    if ok then
      match body with
      | some json =>
        { s with data := some (jsOr (getDailyNews json) (DNValue.arr [])),
                 loading := false }
      | none => { s with error := some errorMessage, loading := false }
    else { s with error := some errorMessage, loading := false }

/-- `Array.prototype.findIndex`: index of the first element satisfying the
callback, `-1` when there is none. -/
def jsFindIndex (xs : List Article) (p : Article → Bool) : Int :=
  match xs.findIdx? p with
  | some i => Int.ofNat i
  | none => -1

/-- `data.filter((item, idx, arr) => arr.findIndex(a => a.id === item.id) === idx)`
— the strict equality `===` on ids is decidable equality of `JSValue`. -/
def dedupById (xs : List Article) : List Article :=
  (xs.enum.filter fun pr =>
    jsFindIndex xs (fun a => a.id == pr.2.id) == Int.ofNat pr.1).map Prod.snd

/-- `const uniqueArticles = Array.isArray(data) ? data.filter(...) : []`. -/
def uniqueArticles (d : DNValue) : List Article :=
  match d with
  | .arr xs => dedupById xs
  | _ => []

/-- A rendered card: the image block (present iff rendered, holding the
`src` value), the title (the `h3` is always emitted), and the body paragraph
(present iff rendered, holding the text content verbatim — the JSX renders
the string unchanged and `whitespace-pre-line` keeps its line breaks). -/
structure Card where
  image : Option JSValue
  title : JSValue
  body : Option JSValue
deriving DecidableEq

/-- Per-article card JSX: `article.image_url && <img src=.../>`, the title
heading, `article.text && <p>...</p>`. -/
def renderCard (a : Article) : Card :=
  { image := if jsTruthy a.image_url then some a.image_url else none,
    title := a.title,
    body := if jsTruthy a.text then some a.text else none }

/-- The four mutually exclusive outputs of the component's render body. -/
inductive RenderView where
  | loadingView (msg : String)
  | errorView (msg : String)
  | emptyView (msg : String)
  | gridView (cards : List Card)
deriving DecidableEq

/-- The component's render body as a pure function of its state: the chain
of early returns, then the grid over `uniqueArticles`. (The stored error is
only ever `errorMessage`, a non-empty hence truthy string, so `if (error)`
is the `Option` match.) -/
def render (s : ComponentState) : RenderView :=
  if s.loading then .loadingView "Cargando noticias ISOTools..."
  else
    match s.error with
    | some e => .errorView e
    | none =>
      match s.data with
      | none => .emptyView "No hay noticias disponibles."
      | some d =>
        if !dnTruthy d || dnLengthIsZero d then
          .emptyView "No hay noticias disponibles."
        else .gridView ((uniqueArticles d).map renderCard)

/-- The cards shown by a view (empty except for the grid view). -/
def cardsOf : RenderView → List Card
  | .gridView cs => cs
  | _ => []

/-- Whether a view is the loading view. -/
def isLoadingView : RenderView → Bool
  | .loadingView _ => true
  | _ => false

/-- Whether a fetch outcome is one of the failure modes: transport error,
non-success status, or a success status whose body is not valid JSON. -/
def isFailureOutcome : FetchOutcome → Bool
  | .networkError => true
  | .response ok body => !ok || body.isNone

/-- Whether a `daily_news` value is an array (`Array.isArray`). -/
def dnIsArray : DNValue → Bool
  | .arr _ => true
  | _ => false

/-- Modelled from the spec's own words, for comparison with `dedupById`:
keep the article at position `i` iff no earlier position `j < i` holds an
article with the same `id`. -/
def firstOccurrenceFilter (xs : List Article) : List Article :=
  (xs.enum.filter fun pr => (xs.take pr.1).all fun a => a.id != pr.2.id).map Prod.snd

/-! Concrete articles and payloads used by the scenario claims. -/

/-- First article of the C8 scenario payload. -/
def articleA : Article := { id := JSValue.num 1, title := JSValue.str "A" }

/-- Duplicate-id article of the C8 scenario payload. -/
def articleADup : Article := { id := JSValue.num 1, title := JSValue.str "A-dup" }

/-- Third article of the C8 scenario payload. -/
def articleB : Article :=
  { id := JSValue.num 2, title := JSValue.str "B",
    text := JSValue.str "Body\nLine2", image_url := JSValue.str "http://x/y.png" }

/-- The C8 scenario payload. -/
def scenarioPayload : Payload :=
  { daily_news := some (DNValue.arr [articleA, articleADup, articleB]) }

/-- An article whose `image_url` and `text` are present but are the empty
string: present, yet falsy. -/
def emptyStringFieldsArticle : Article :=
  { id := JSValue.num 1, title := JSValue.str "T",
    text := JSValue.str "", image_url := JSValue.str "" }

/-! ## Theorems for the claims -/

/-- C2: every failure of `load()` — network/transport error, non-success
status (whatever the body holds), or a success status whose body is not
valid JSON — puts the component in the Error render state with the single
fixed message. (No retry exists in the model: a mount consumes exactly one
`FetchOutcome`, matching the single `fetchData()` call in the effect.) -/
theorem failure_renders_fixed_error (o : FetchOutcome)
    (h : isFailureOutcome o = true) :
    render (load initialState o) =
      RenderView.errorView "No se pudieron cargar las noticias de ISOTools." := by
  cases o with
  | networkError => rfl
  | response ok body =>
    cases ok with
    | false => rfl
    | true =>
      cases body with
      | none => rfl
      | some p => simp [isFailureOutcome, Option.isNone] at h

/-- Witness for C2: the network-error outcome is a failure and renders the
fixed error message. -/
theorem failure_renders_fixed_error_witness :
    isFailureOutcome FetchOutcome.networkError = true ∧
    render (load initialState FetchOutcome.networkError) =
      RenderView.errorView "No se pudieron cargar las noticias de ISOTools." :=
  ⟨rfl, failure_renders_fixed_error FetchOutcome.networkError rfl⟩

/-- C3: a successful response whose parsed body lacks `daily_news` stores the
empty sequence and renders the empty state, not an error. -/
theorem absent_daily_news_renders_empty :
    (load initialState (FetchOutcome.response true (some { daily_news := none }))).data
      = some (DNValue.arr []) ∧
    (load initialState (FetchOutcome.response true (some { daily_news := none }))).error
      = none ∧
    render (load initialState (FetchOutcome.response true (some { daily_news := none })))
      = RenderView.emptyView "No hay noticias disponibles." :=
  ⟨rfl, rfl, rfl⟩

/-- C4: on every path of `load()` the loading flag ends up cleared, and the
resulting state never renders the loading view. -/
theorem load_clears_loading (s : ComponentState) (o : FetchOutcome) :
    (load s o).loading = false ∧ isLoadingView (render (load s o)) = false := by
  have hl : (load s o).loading = false := by
    cases o with
    | networkError => rfl
    | response ok body => cases ok <;> cases body <;> rfl
  refine ⟨hl, ?_⟩
  unfold render
  rw [hl]
  simp only [Bool.false_eq_true, if_false]
  split
  · rfl
  · split
    · rfl
    · split <;> rfl

/-- C5: a `daily_news` value that is not an array yields the empty list from
the deduplication step, and the full pipeline renders zero cards for it. -/
theorem non_array_renders_no_cards (d : DNValue) (h : dnIsArray d = false) :
    uniqueArticles d = [] ∧
    cardsOf (render (load initialState
      (FetchOutcome.response true (some { daily_news := some d })))) = [] := by
  have hu : uniqueArticles d = [] := by
    cases d with
    | arr xs => exact absurd h (by simp [dnIsArray])
    | undefined => rfl
    | null => rfl
    | boolean b => rfl
    | num n => rfl
    | str s => rfl
    | obj l => rfl
  refine ⟨hu, ?_⟩
  have hload : load initialState
      (FetchOutcome.response true (some { daily_news := some d }))
      = { data := some (jsOr d (DNValue.arr [])), loading := false, error := none } := rfl
  rw [hload]
  unfold jsOr
  by_cases ht : dnTruthy d = true
  · rw [if_pos ht]
    unfold render
    simp only [Bool.false_eq_true, if_false]
    by_cases hz : (!dnTruthy d || dnLengthIsZero d) = true
    · rw [if_pos hz]
      rfl
    · rw [if_neg hz]
      simp [cardsOf, hu]
  · rw [if_neg ht]
    rfl

/-- Witness for C5: `null` is not an array, dedups to the empty list, and the
pipeline renders zero cards for it. -/
theorem non_array_renders_no_cards_witness :
    dnIsArray DNValue.null = false ∧
    (uniqueArticles DNValue.null = [] ∧
      cardsOf (render (load initialState
        (FetchOutcome.response true (some { daily_news := some DNValue.null })))) = []) :=
  ⟨rfl, non_array_renders_no_cards DNValue.null rfl⟩

/-- C7 counterexample: an article whose `image_url` and `text` fields are
present (they hold the empty string, not `undefined`), yet the rendered card
has neither an image block nor a body block — the code tests truthiness, not
presence. -/
theorem card_blocks_present_counterexample :
    emptyStringFieldsArticle.image_url ≠ JSValue.undefined ∧
    emptyStringFieldsArticle.text ≠ JSValue.undefined ∧
    (renderCard emptyStringFieldsArticle).image = none ∧
    (renderCard emptyStringFieldsArticle).body = none := by
  refine ⟨by decide, by decide, ?_, ?_⟩ <;> decide

/-- C7 amended: every card carries the article's title; the image block is
rendered iff `image_url` is truthy, in which case it holds the `src` value
unchanged; the body block is rendered iff `text` is truthy, in which case it
holds the text value verbatim (so embedded line breaks survive literally). -/
theorem card_contents (a : Article) :
    (renderCard a).title = a.title ∧
    ((renderCard a).image = some a.image_url ↔ jsTruthy a.image_url = true) ∧
    ((renderCard a).image = none ↔ jsTruthy a.image_url = false) ∧
    ((renderCard a).body = some a.text ↔ jsTruthy a.text = true) ∧
    ((renderCard a).body = none ↔ jsTruthy a.text = false) := by
  unfold renderCard
  by_cases hi : jsTruthy a.image_url = true <;>
    by_cases ht : jsTruthy a.text = true <;>
      simp [hi, ht]

/-- C8: on the scenario payload the component renders exactly two cards,
titled "A" then "B"; the second card has an image block and a body whose
text contains exactly one line break (two lines). -/
theorem scenario_renders_two_cards :
    render (load initialState (FetchOutcome.response true (some scenarioPayload)))
      = RenderView.gridView
          [{ image := none, title := JSValue.str "A", body := none },
           { image := some (JSValue.str "http://x/y.png"), title := JSValue.str "B",
             body := some (JSValue.str "Body\nLine2") }] ∧
    ("Body\nLine2".toList.filter (fun c => c == '\n')).length = 1 := by
  constructor <;> decide

/-- C9: a present-but-falsy `daily_news` value (`null`, `false`, `0`, `""`)
is coerced by `|| []` to the empty sequence and renders the empty state. -/
theorem falsy_daily_news_renders_empty :
    ((load initialState (FetchOutcome.response true
        (some { daily_news := some DNValue.null }))).data = some (DNValue.arr []) ∧
      render (load initialState (FetchOutcome.response true
        (some { daily_news := some DNValue.null })))
        = RenderView.emptyView "No hay noticias disponibles.") ∧
    ((load initialState (FetchOutcome.response true
        (some { daily_news := some (DNValue.boolean false) }))).data
          = some (DNValue.arr []) ∧
      render (load initialState (FetchOutcome.response true
        (some { daily_news := some (DNValue.boolean false) })))
        = RenderView.emptyView "No hay noticias disponibles.") ∧
    ((load initialState (FetchOutcome.response true
        (some { daily_news := some (DNValue.num 0) }))).data = some (DNValue.arr []) ∧
      render (load initialState (FetchOutcome.response true
        (some { daily_news := some (DNValue.num 0) })))
        = RenderView.emptyView "No hay noticias disponibles.") ∧
    ((load initialState (FetchOutcome.response true
        (some { daily_news := some (DNValue.str "") }))).data = some (DNValue.arr []) ∧
      render (load initialState (FetchOutcome.response true
        (some { daily_news := some (DNValue.str "") })))
        = RenderView.emptyView "No hay noticias disponibles.") := by
  refine ⟨⟨rfl, ?_⟩, ⟨rfl, ?_⟩, ⟨rfl, ?_⟩, ⟨rfl, ?_⟩⟩ <;> decide

/-! ## Correctness of the deduplication filter -/

/-- Membership in a prefix is membership at an earlier position. -/
theorem mem_take_iff_lt (xs : List Article) (i : Nat) (c : Article) :
    c ∈ xs.take i ↔ ∃ k, k < i ∧ xs[k]? = some c := by
  constructor
  · intro hc
    obtain ⟨k, hk⟩ := List.mem_iff_getElem?.mp hc
    rw [List.getElem?_take] at hk
    by_cases h : k < i
    · exact ⟨k, h, by rwa [if_pos h] at hk⟩
    · rw [if_neg h] at hk
      cases hk
  · rintro ⟨k, hki, hk⟩
    exact List.getElem?_mem (by rw [List.getElem?_take, if_pos hki]; exact hk)

/-- At every in-range position, the `findIndex`-based keep test of
`dedupById` computes exactly the spec's first-occurrence test. -/
theorem keep_test_eq (xs : List Article) (i : Nat) (a : Article)
    (h : xs[i]? = some a) :
    (jsFindIndex xs (fun b => b.id == a.id) == Int.ofNat i)
      = ((xs.take i).all fun b => b.id != a.id) := by
  obtain ⟨hlen, hget⟩ := List.getElem?_eq_some_iff.mp h
  unfold jsFindIndex
  rcases hfind : xs.findIdx? (fun b => b.id == a.id) with _ | j
  · rw [List.findIdx?_eq_none_iff] at hfind
    have := hfind a (List.getElem?_mem h)
    simp at this
  · rw [hfind]
    rw [List.findIdx?_eq_some_iff_getElem] at hfind
    obtain ⟨hj, hpj, hmin⟩ := hfind
    show (Int.ofNat j == Int.ofNat i) = _
    by_cases hji : j = i
    · subst hji
      have hl : (Int.ofNat j == Int.ofNat j) = true := by simp
      rw [hl]
      symm
      rw [List.all_eq_true]
      intro b hb
      obtain ⟨k, hk, hbk⟩ := (mem_take_iff_lt xs j b).mp hb
      obtain ⟨hklen, hkget⟩ := List.getElem?_eq_some_iff.mp hbk
      have hne := hmin k hk
      rw [hkget] at hne
      simpa using hne
    · have hij : j < i := by
        rcases Nat.lt_or_ge j i with h1 | h2
        · exact h1
        · have hij' : i < j := Nat.lt_of_le_of_ne h2 fun he => hji he.symm
          have := hmin i hij'
          rw [hget] at this
          simp at this
      have hl : (Int.ofNat j == Int.ofNat i) = false := by
        simp [hji]
      rw [hl]
      symm
      rw [Bool.eq_false_iff]
      intro hall
      have hmem : xs[j] ∈ xs.take i :=
        (mem_take_iff_lt xs i xs[j]).mpr ⟨j, hij, List.getElem?_eq_getElem hj⟩
      have := List.all_eq_true.mp hall xs[j] hmem
      simp only [bne_iff_ne, ne_eq] at this
      exact this (by simpa using hpj)

/-- The JS dedup filter computes exactly the spec's first-occurrence
filter. -/
theorem dedupById_eq_firstOccurrenceFilter (xs : List Article) :
    dedupById xs = firstOccurrenceFilter xs := by
  unfold dedupById firstOccurrenceFilter
  congr 1
  apply List.filter_congr
  intro pr hpr
  exact keep_test_eq xs pr.1 pr.2 (List.mem_enum_iff_getElem?.mp hpr)

/-- The positions recorded by `enum` are strictly increasing. -/
theorem enum_fst_pairwise (xs : List Article) :
    xs.enum.Pairwise fun p q => p.1 < q.1 := by
  rw [List.pairwise_iff_getElem]
  intro i j hi hj hij
  rw [List.getElem_enum, List.getElem_enum]
  simpa using hij

/-- Characterisation of the articles kept by `dedupById`: kept at some
position whose strict prefix holds no article with the same id. -/
theorem mem_dedupById_iff (xs : List Article) (b : Article) :
    b ∈ dedupById xs ↔ ∃ i, xs[i]? = some b ∧
      ((xs.take i).all fun c => c.id != b.id) = true := by
  unfold dedupById
  constructor
  · intro hb
    obtain ⟨pr, hpr, hsnd⟩ := List.mem_map.mp hb
    obtain ⟨hmem, hkeep⟩ := List.mem_filter.mp hpr
    have he : xs[pr.1]? = some pr.2 := List.mem_enum_iff_getElem?.mp hmem
    rw [keep_test_eq xs pr.1 pr.2 he] at hkeep
    exact ⟨pr.1, hsnd ▸ he, hsnd ▸ hkeep⟩
  · rintro ⟨i, hi, hkeep⟩
    apply List.mem_map.mpr
    refine ⟨(i, b), List.mem_filter.mpr ⟨List.mem_enum_iff_getElem?.mpr hi, ?_⟩, rfl⟩
    rw [keep_test_eq xs i b hi]
    exact hkeep

/-- The articles kept by `dedupById` have pairwise distinct ids. -/
theorem dedupById_ids_pairwise (xs : List Article) :
    (dedupById xs).Pairwise fun a b => a.id ≠ b.id := by
  unfold dedupById
  rw [List.pairwise_map]
  refine List.Pairwise.imp_of_mem ?_ ((enum_fst_pairwise xs).filter _)
  intro p q hp hq hlt
  obtain ⟨hpm, _⟩ := List.mem_filter.mp hp
  obtain ⟨hqm, hqk⟩ := List.mem_filter.mp hq
  have hqe : xs[q.1]? = some q.2 := List.mem_enum_iff_getElem?.mp hqm
  have hpe : xs[p.1]? = some p.2 := List.mem_enum_iff_getElem?.mp hpm
  rw [keep_test_eq xs q.1 q.2 hqe] at hqk
  have hmem : p.2 ∈ xs.take q.1 := (mem_take_iff_lt xs q.1 p.2).mpr ⟨p.1, hlt, hpe⟩
  have := List.all_eq_true.mp hqk p.2 hmem
  simpa using this

/-- Every id occurring in the input also occurs among the kept articles:
the first article bearing it survives the filter. -/
theorem exists_kept_with_id (xs : List Article) (a : Article) (ha : a ∈ xs) :
    ∃ b, b ∈ dedupById xs ∧ b.id = a.id := by
  have hex : ∃ x, x ∈ xs ∧ (x.id == a.id) = true := ⟨a, ha, by simp⟩
  have hfind := List.findIdx?_eq_some_of_exists hex
  rw [List.findIdx?_eq_some_iff_getElem] at hfind
  obtain ⟨hlen, hp, hmin⟩ := hfind
  refine ⟨xs[xs.findIdx fun b => b.id == a.id], ?_, by simpa using hp⟩
  apply (mem_dedupById_iff xs _).mpr
  refine ⟨xs.findIdx fun b => b.id == a.id, List.getElem?_eq_getElem hlen, ?_⟩
  rw [List.all_eq_true]
  intro c hc
  obtain ⟨k, hk, hck⟩ := (mem_take_iff_lt xs _ c).mp hc
  obtain ⟨hklen, hkget⟩ := List.getElem?_eq_some_iff.mp hck
  have hne := hmin k hk
  rw [hkget] at hne
  have hid : xs[xs.findIdx fun b => b.id == a.id].id = a.id := by simpa using hp
  rw [hid]
  simpa using hne

/-- The kept articles number exactly the distinct ids of the input. -/
theorem dedupById_length_eq_card (xs : List Article) :
    (dedupById xs).length = ((xs.map Article.id).toFinset).card := by
  have hnd : ((dedupById xs).map Article.id).Nodup := by
    show ((dedupById xs).map Article.id).Pairwise (· ≠ ·)
    exact List.pairwise_map.mpr (dedupById_ids_pairwise xs)
  have hset : ((dedupById xs).map Article.id).toFinset = (xs.map Article.id).toFinset := by
    ext v
    simp only [List.mem_toFinset, List.mem_map]
    constructor
    · rintro ⟨b, hb, rfl⟩
      obtain ⟨i, hi, _⟩ := (mem_dedupById_iff xs b).mp hb
      exact ⟨b, List.getElem?_mem hi, rfl⟩
    · rintro ⟨a, ha, rfl⟩
      obtain ⟨b, hb, hbid⟩ := exists_kept_with_id xs a ha
      exact ⟨b, hb, hbid⟩
  calc (dedupById xs).length
      = ((dedupById xs).map Article.id).length := (List.length_map _ _).symm
    _ = ((dedupById xs).map Article.id).toFinset.card :=
        (List.toFinset_card_of_nodup hnd).symm
    _ = (xs.map Article.id).toFinset.card := by rw [hset]

/-- A list whose ids are already pairwise distinct passes the dedup filter
unchanged. -/
theorem dedupById_eq_self_of_pairwise (ys : List Article)
    (h : ys.Pairwise fun a b => a.id ≠ b.id) : dedupById ys = ys := by
  unfold dedupById
  have hfilter : (ys.enum.filter fun pr =>
      jsFindIndex ys (fun a => a.id == pr.2.id) == Int.ofNat pr.1) = ys.enum := by
    rw [List.filter_eq_self]
    intro pr hpr
    have he : ys[pr.1]? = some pr.2 := List.mem_enum_iff_getElem?.mp hpr
    rw [keep_test_eq ys pr.1 pr.2 he, List.all_eq_true]
    intro c hc
    obtain ⟨k, hk, hck⟩ := (mem_take_iff_lt ys pr.1 c).mp hc
    obtain ⟨hklen, hkget⟩ := List.getElem?_eq_some_iff.mp hck
    obtain ⟨hilen, higet⟩ := List.getElem?_eq_some_iff.mp he
    have hne := List.pairwise_iff_getElem.mp h k pr.1 hklen hilen hk
    rw [hkget, higet] at hne
    simpa using hne
  rw [hfilter, List.enum_map_snd]

/-- C1: for an array payload, the rendered cards are exactly the input
articles filtered to the first occurrence of each id (spec's own wording,
`firstOccurrenceFilter`), order preserved, and the card count equals the
number of distinct id values. -/
theorem dedup_is_first_occurrence (xs : List Article) :
    uniqueArticles (DNValue.arr xs) = firstOccurrenceFilter xs ∧
    cardsOf (render (load initialState (FetchOutcome.response true
        (some { daily_news := some (DNValue.arr xs) }))))
      = (firstOccurrenceFilter xs).map renderCard ∧
    (cardsOf (render (load initialState (FetchOutcome.response true
        (some { daily_news := some (DNValue.arr xs) }))))).length
      = ((xs.map Article.id).toFinset).card := by
  have hc : cardsOf (render (load initialState (FetchOutcome.response true
      (some { daily_news := some (DNValue.arr xs) }))))
      = (firstOccurrenceFilter xs).map renderCard := by
    cases xs with
    | nil => rfl
    | cons a rest =>
      have hcards : cardsOf (render (load initialState (FetchOutcome.response true
          (some { daily_news := some (DNValue.arr (a :: rest)) }))))
          = (dedupById (a :: rest)).map renderCard := rfl
      rw [hcards, dedupById_eq_firstOccurrenceFilter]
  refine ⟨dedupById_eq_firstOccurrenceFilter xs, hc, ?_⟩
  rw [hc, List.length_map, ← dedupById_eq_firstOccurrenceFilter,
    dedupById_length_eq_card]

/-- C6: the deduplication is idempotent — filtering an already-filtered
article list changes nothing (and, the model being a pure function, two runs
of `load` on the same payload give identical results). -/
theorem dedup_idempotent (xs : List Article) :
    uniqueArticles (DNValue.arr (uniqueArticles (DNValue.arr xs)))
      = uniqueArticles (DNValue.arr xs) :=
  dedupById_eq_self_of_pairwise _ (dedupById_ids_pairwise xs)

/-- The find?-view of a kept article: an article kept at a position whose
prefix holds no article of the same id is the first match of its id. -/
theorem find?_of_kept (xs : List Article) (b : Article) (i : Nat)
    (hi : xs[i]? = some b)
    (hkeep : ((xs.take i).all fun c => c.id != b.id) = true) :
    xs.find? (fun c => c.id == b.id) = some b := by
  obtain ⟨hlen, hget⟩ := List.getElem?_eq_some_iff.mp hi
  rw [List.find?_eq_some]
  refine ⟨by simp, xs.take i, xs.drop (i + 1), ?_, ?_⟩
  · conv_lhs => rw [← List.take_append_drop i xs]
    congr 1
    rw [← hget]
    exact (List.getElem_cons_drop xs i hlen).symm
  · intro c hc
    have := List.all_eq_true.mp hkeep c hc
    simpa using this

/-- C10: dedup compares ids with strict (typed) equality. Every kept
article with an absent id (`undefined`) is the input's first such article;
whenever some article lacks an id, exactly one absent-id article survives;
and ids equal in value but different in type (the number 1 and the string
"1") are not identified — both articles are kept. -/
theorem dedup_strict_id_equality :
    (∀ (xs : List Article) (b : Article), b ∈ dedupById xs →
      b.id = JSValue.undefined →
      xs.find? (fun c => c.id == JSValue.undefined) = some b) ∧
    (∀ (xs : List Article) (a : Article), a ∈ xs → a.id = JSValue.undefined →
      ∃ b, b ∈ dedupById xs ∧ b.id = JSValue.undefined) ∧
    dedupById [{ id := JSValue.num 1, title := JSValue.str "A" },
               { id := JSValue.str "1", title := JSValue.str "B" }]
      = [{ id := JSValue.num 1, title := JSValue.str "A" },
         { id := JSValue.str "1", title := JSValue.str "B" }] := by
  refine ⟨?_, ?_, by decide⟩
  · intro xs b hb hbid
    obtain ⟨i, hi, hkeep⟩ := (mem_dedupById_iff xs b).mp hb
    have := find?_of_kept xs b i hi hkeep
    rwa [hbid] at this
  · intro xs a ha haid
    obtain ⟨b, hb, hbid⟩ := exists_kept_with_id xs a ha
    exact ⟨b, hb, haid ▸ hbid⟩

/-- Witness for C10 at a concrete input: of two articles both lacking an
id, only the first survives, and it is what `find?` locates; the typed
ids 1 and "1" are both kept. -/
theorem dedup_strict_id_equality_witness :
    [(⟨JSValue.undefined, JSValue.str "U1", JSValue.undefined, JSValue.undefined⟩ : Article),
     ⟨JSValue.undefined, JSValue.str "U2", JSValue.undefined, JSValue.undefined⟩].find?
        (fun c => c.id == JSValue.undefined)
      = some ⟨JSValue.undefined, JSValue.str "U1", JSValue.undefined, JSValue.undefined⟩ ∧
    (∃ b, b ∈ dedupById
        [(⟨JSValue.undefined, JSValue.str "U1", JSValue.undefined, JSValue.undefined⟩ : Article),
         ⟨JSValue.undefined, JSValue.str "U2", JSValue.undefined, JSValue.undefined⟩] ∧
      b.id = JSValue.undefined) ∧
    dedupById [{ id := JSValue.num 1, title := JSValue.str "A" },
               { id := JSValue.str "1", title := JSValue.str "B" }]
      = [{ id := JSValue.num 1, title := JSValue.str "A" },
         { id := JSValue.str "1", title := JSValue.str "B" }] :=
  ⟨dedup_strict_id_equality.1 _ _ (by decide) rfl,
   dedup_strict_id_equality.2.1 _
     ⟨JSValue.undefined, JSValue.str "U1", JSValue.undefined, JSValue.undefined⟩
     (by decide) rfl,
   dedup_strict_id_equality.2.2⟩

end ISOTools
